import Mathlib

/-
Verification of the identity-verification access point in
`verify_person/verify.py` against its design specification.

The Python source is shallowly embedded below.  Real-valued distances and
thresholds are modelled as rationals (ℚ); Python `None` becomes `Option`;
a raised Python exception becomes the `exn` constructor of `PyResult`.
The SQLite `employees` table is a list of rows, the `access_logs` table a
list of `AccessLogEntry` values (timestamps and auto-increment ids are not
needed by any claim and are omitted).
-/

namespace VerifyPerson

/-- The Python exceptions relevant to the embedded code: a `TypeError`
(raised by `float(None)`) and an `sqlite3` error on a failed INSERT. -/
inductive PyError where
  | typeError
  | sqliteError
  deriving DecidableEq, Repr

/-- Result of running a piece of Python code: either a value or a raised
exception that propagates to the caller. -/
inductive PyResult (α : Type) where
  | ok (val : α)
  | exn (e : PyError)
  deriving DecidableEq, Repr

/-- The module-level configuration constants of `verify.py` that the
decision logic reads (`USE_THRESHOLD_FROM_DF`, `FALLBACK_THRESHOLD`). -/
structure Config where
  use_threshold_from_df : Bool
  fallback_threshold : ℚ
  deriving DecidableEq, Repr

/-- `USE_THRESHOLD_FROM_DF = True` in the source. -/
def USE_THRESHOLD_FROM_DF : Bool := true

/-- `FALLBACK_THRESHOLD = 0.45` in the source (the rational 45/100). -/
def FALLBACK_THRESHOLD : ℚ := mkRat 45 100

/-- The configuration actually used by `main`. -/
def defaultConfig : Config := ⟨USE_THRESHOLD_FROM_DF, FALLBACK_THRESHOLD⟩

/-- The value dict of one `person_data` entry: `{"full_name": ..., "class": ...}`.
Fields are optional because the code reads them with `info.get(key, default)`. -/
structure Info where
  full_name : Option String
  cls : Option String
  deriving DecidableEq, Repr

/-- One row of the `employees` table (`folder_name` is UNIQUE). -/
structure EmployeeRow where
  folder_name : String
  full_name : String
  cls : String
  deriving DecidableEq, Repr

/-- The `person_data` mapping of the source. -/
def person_data : List (String × Info) :=
  [("Nazarbek", ⟨some "Nazarbek Qobulov", some "9-sinf"⟩),
   ("Azizbek", ⟨some "Azizbek X.", some "10-sinf"⟩)]

/-- Whether the `employees` table already holds a row with this
`folder_name` (the UNIQUE column). -/
def hasKey (tbl : List EmployeeRow) (k : String) : Bool :=
  tbl.any (fun r => r.folder_name == k)

/-- `INSERT OR IGNORE INTO employees ...`: the row is appended unless a row
with the same `folder_name` already exists, in which case the table is
returned unchanged. -/
def insertOrIgnore (tbl : List EmployeeRow) (r : EmployeeRow) : List EmployeeRow :=
  if hasKey tbl r.folder_name then tbl else tbl ++ [r]

/-- The row built for one mapping entry in `seed_employees`:
`(folder_name, info.get("full_name", folder_name), info.get("class", ""))`. -/
def seedRow (folder_name : String) (info : Info) : EmployeeRow :=
  ⟨folder_name, info.full_name.getD folder_name, info.cls.getD ""⟩

/-- `seed_employees(conn, mapping)`: one `INSERT OR IGNORE` per mapping
entry, in order. -/
def seed_employees (tbl : List EmployeeRow) (mapping : List (String × Info)) :
    List EmployeeRow :=
  mapping.foldl (fun t kv => insertOrIgnore t (seedRow kv.1 kv.2)) tbl

/-- `get_employee(conn, folder_name)`: `SELECT ... WHERE folder_name = ?`
returning the first row or `None`.  A SQL equality against NULL matches no
row, so a `none` key always yields `none`. -/
def get_employee (tbl : List EmployeeRow) (folder_name : Option String) :
    Option EmployeeRow :=
  match folder_name with
  | none => none
  | some k => tbl.find? (fun r => r.folder_name == k)

/-- One row of the `access_logs` table, with the fields the claims are
about (`id` and `timestamp` omitted; `matched` is stored as 1/0 but
modelled as the Bool passed to `log_access`). -/
structure AccessLogEntry where
  folder_name : Option String
  full_name : Option String
  matched : Bool
  distance : Option ℚ
  deriving DecidableEq, Repr

/-- `log_access(conn, folder_name, full_name, matched, distance)`: the row
inserted into `access_logs`. -/
def log_access (folder_name full_name : Option String) (matched : Bool)
    (distance : Option ℚ) : AccessLogEntry :=
  ⟨folder_name, full_name, matched, distance⟩

/-- One row of a DeepFace result DataFrame, as read by `main` via
`top.get(...)`: the identity path (`""` when absent), the distance and the
per-match threshold (both possibly `None`). -/
structure TopResult where
  identity : String
  distance : Option ℚ
  threshold : Option ℚ
  deriving DecidableEq, Repr

/-- Split a character list at every `'/'` (the separator is dropped).
Structural counterpart of splitting a path into its components. -/
def splitSlash : List Char → List (List Char)
  | [] => [[]]
  | c :: cs =>
      if c = '/' then [] :: splitSlash cs
      else
        match splitSlash cs with
        | [] => [[c]]
        | r :: rs => (c :: r) :: rs

/-- The `/`-separated components of a path. -/
def pathComponents (p : String) : List String :=
  (splitSlash p.data).map List.asString

/-- `os.path.dirname` for the forward-slash paths DeepFace produces. -/
def dirnameOf (p : String) : String :=
  String.intercalate "/" (pathComponents p).dropLast

/-- `os.path.basename` for forward-slash paths. -/
def basenameOf (p : String) : String :=
  (pathComponents p).getLastD ""

/-- `person_name = os.path.basename(os.path.dirname(identity_path)) if identity_path else None`. -/
def personName (identity_path : String) : Option String :=
  if identity_path = "" then none
  else some (basenameOf (dirnameOf identity_path))

/-- `safe_get_top_result(df_list)`: `None` when the list is `None` or
empty or the first DataFrame is empty, else the first row of the first
DataFrame. -/
def safe_get_top_result (df_list : Option (List (List TopResult))) :
    Option TopResult :=
  match df_list with
  | none => none
  | some [] => none
  | some (df :: _) => df.head?

/-- The matched computation of `main`:
`if USE_THRESHOLD_FROM_DF and threshold is not None: matched = float(distance) <= float(threshold)`
(raising `TypeError` when `distance` is `None`),
`else: matched = float(distance) <= FALLBACK_THRESHOLD if distance is not None else False`. -/
def computeMatched (cfg : Config) (distance threshold : Option ℚ) :
    PyResult Bool :=
  match threshold, cfg.use_threshold_from_df with
  | some t, true =>
      match distance with
      | some d => .ok (decide (d ≤ t))
      | none => .exn .typeError
  | some _, false =>
      match distance with
      | some d => .ok (decide (d ≤ cfg.fallback_threshold))
      | none => .ok false
  | none, _ =>
      match distance with
      | some d => .ok (decide (d ≤ cfg.fallback_threshold))
      | none => .ok false

/-- The employee dict used by the matched branch:
`get_employee(conn, person_name) or {"folder_name": person_name, "full_name": person_name, "class": ""}`. -/
structure EmpView where
  folder_name : Option String
  full_name : Option String
  cls : String
  deriving DecidableEq, Repr

/-- Registry resolution with the defensive fallback dict of `main`. -/
def resolveEmployee (tbl : List EmployeeRow) (person_name : Option String) :
    EmpView :=
  match get_employee tbl person_name with
  | some r => ⟨some r.folder_name, some r.full_name, r.cls⟩
  | none => ⟨person_name, person_name, ""⟩

/-- The decide-resolve-log part of one `main` loop iteration, given the
top result (or `None`).  Returns the `access_logs` row inserted by that
iteration, or the exception that propagates out of the loop. -/
def processTop (cfg : Config) (tbl : List EmployeeRow)
    (top : Option TopResult) : PyResult AccessLogEntry :=
  match top with
  | none => .ok (log_access none (some "Unknown") false none)
  | some t =>
      let person_name := personName t.identity
      match computeMatched cfg t.distance t.threshold with
      | .exn e => .exn e
      | .ok true =>
          let emp := resolveEmployee tbl person_name
          .ok (log_access person_name emp.full_name true t.distance)
      | .ok false =>
          .ok (log_access none (some "Unknown") false t.distance)

/-- Outcome of the `DeepFace.find` call for one frame: a result list, or a
raised exception (caught by `main`, which sets `df_list = None`). -/
inductive MatcherOutcome where
  | ok (df_list : List (List TopResult))
  | err
  deriving DecidableEq, Repr

/-- The `df_list` value after the try/except around `DeepFace.find`. -/
def dfListOf (m : MatcherOutcome) : Option (List (List TopResult)) :=
  match m with
  | .ok l => some l
  | .err => none

/-- `top = safe_get_top_result(df_list)` for one frame. -/
def topOf (m : MatcherOutcome) : Option TopResult :=
  safe_get_top_result (dfListOf m)

/-- One full loop iteration of `main` from the matcher outcome to the
inserted `access_logs` row (or propagated exception). -/
def processFrame (cfg : Config) (tbl : List EmployeeRow)
    (m : MatcherOutcome) : PyResult AccessLogEntry :=
  processTop cfg tbl (topOf m)

/-- One frame's external inputs: the matcher outcome and whether the
SQLite INSERT performed by `log_access` for this frame succeeds. -/
structure FrameInput where
  matcher : MatcherOutcome
  write_ok : Bool
  deriving DecidableEq, Repr

/-- One iteration including the ledger write: if the INSERT fails,
`log_access` raises and no row is appended. -/
def runIter (cfg : Config) (tbl : List EmployeeRow) (f : FrameInput) :
    PyResult AccessLogEntry :=
  match processFrame cfg tbl f.matcher with
  | .exn e => .exn e
  | .ok entry => if f.write_ok then .ok entry else .exn .sqliteError

/-- The `while True` loop of `main` over a finite stream of frames,
accumulating the `access_logs` table.  An exception raised inside an
iteration is not caught anywhere in the loop: the loop stops there and the
exception propagates (second component `some e`). -/
def runLoop (cfg : Config) (tbl : List EmployeeRow) :
    List FrameInput → List AccessLogEntry →
    List AccessLogEntry × Option PyError
  | [], led => (led, none)
  | f :: rest, led =>
      match runIter cfg tbl f with
      | .ok e => runLoop cfg tbl rest (led ++ [e])
      | .exn err => (led, some err)

/-- Spec-side definition (from the spec's words, for comparison with the
code): the active threshold is the candidate-supplied threshold when
`use_source_threshold` is enabled and the candidate supplies one, and
otherwise the configured fallback threshold. -/
def activeThreshold (cfg : Config) (threshold : Option ℚ) : ℚ :=
  match threshold, cfg.use_threshold_from_df with
  | some t, true => t
  | _, _ => cfg.fallback_threshold

/-- Iterating `seed_employees` with a fixed mapping. -/
def seedIter (tbl : List EmployeeRow) (mapping : List (String × Info)) :
    Nat → List EmployeeRow
  | 0 => tbl
  | n + 1 => seed_employees (seedIter tbl mapping n) mapping

/-- When a distance is present, the matched computation never raises and
computes exactly the inclusive comparison against the active threshold. -/
theorem computeMatched_some (cfg : Config) (d : ℚ) (thr : Option ℚ) :
    computeMatched cfg (some d) thr
      = .ok (decide (d ≤ activeThreshold cfg thr)) := by
  obtain ⟨u, fb⟩ := cfg
  cases thr with
  | none => cases u <;> rfl
  | some t => cases u <;> rfl

/-- A `folder_name` absent from the table makes `get_employee` return
`none` (an explicit absent result, no exception). -/
theorem get_employee_eq_none_of_not_hasKey (tbl : List EmployeeRow) (k : String)
    (h : hasKey tbl k = false) : get_employee tbl (some k) = none := by
  unfold hasKey at h
  rw [List.any_eq_false] at h
  unfold get_employee
  rw [List.find?_eq_none]
  exact h

/-- Inserting a row keeps every key that was already present. -/
theorem hasKey_insertOrIgnore_of (tbl : List EmployeeRow) (r : EmployeeRow)
    (k : String) (h : hasKey tbl k = true) :
    hasKey (insertOrIgnore tbl r) k = true := by
  unfold insertOrIgnore
  split
  · exact h
  · unfold hasKey at h ⊢
    rw [List.any_append, h, Bool.true_or]

/-- After `insertOrIgnore tbl r` the key of `r` is present. -/
theorem hasKey_insertOrIgnore_self (tbl : List EmployeeRow) (r : EmployeeRow) :
    hasKey (insertOrIgnore tbl r) r.folder_name = true := by
  unfold insertOrIgnore
  split
  next h => exact h
  next h =>
    unfold hasKey
    rw [List.any_append]
    simp

/-- Seeding keeps every key that was already present. -/
theorem hasKey_seed_employees_of (mapping : List (String × Info))
    (tbl : List EmployeeRow) (k : String) (h : hasKey tbl k = true) :
    hasKey (seed_employees tbl mapping) k = true := by
  induction mapping generalizing tbl with
  | nil => exact h
  | cons hd rest ih =>
      have : seed_employees tbl (hd :: rest)
          = seed_employees (insertOrIgnore tbl (seedRow hd.1 hd.2)) rest := by
        simp [seed_employees]
      rw [this]
      exact ih _ (hasKey_insertOrIgnore_of _ _ _ h)

/-- After seeding, every key of the mapping is present in the table. -/
theorem hasKey_seed_employees_mem (tbl : List EmployeeRow)
    (mapping : List (String × Info)) (kv : String × Info) (h : kv ∈ mapping) :
    hasKey (seed_employees tbl mapping) kv.1 = true := by
  induction mapping generalizing tbl with
  | nil => cases h
  | cons hd rest ih =>
      have hstep : seed_employees tbl (hd :: rest)
          = seed_employees (insertOrIgnore tbl (seedRow hd.1 hd.2)) rest := by
        simp [seed_employees]
      rw [hstep]
      rcases List.mem_cons.mp h with h | h
      · subst h
        exact hasKey_seed_employees_of rest _ kv.1
          (hasKey_insertOrIgnore_self tbl (seedRow kv.1 kv.2))
      · exact ih _ h

/-- `INSERT OR IGNORE` of a key that is already present changes nothing. -/
theorem insertOrIgnore_of_hasKey (tbl : List EmployeeRow) (r : EmployeeRow)
    (h : hasKey tbl r.folder_name = true) : insertOrIgnore tbl r = tbl := by
  unfold insertOrIgnore
  simp [h]

/-- Seeding with a mapping whose keys are all present changes nothing. -/
theorem seed_employees_of_allKeys (mapping : List (String × Info))
    (tbl : List EmployeeRow) (h : ∀ kv ∈ mapping, hasKey tbl kv.1 = true) :
    seed_employees tbl mapping = tbl := by
  induction mapping with
  | nil => rfl
  | cons hd rest ih =>
      have hstep : seed_employees tbl (hd :: rest)
          = seed_employees (insertOrIgnore tbl (seedRow hd.1 hd.2)) rest := by
        simp [seed_employees]
      have h1 : insertOrIgnore tbl (seedRow hd.1 hd.2) = tbl :=
        insertOrIgnore_of_hasKey _ _ (h hd (List.mem_cons_self _ _))
      rw [hstep, h1]
      exact ih (fun kv hk => h kv (List.mem_cons_of_mem _ hk))

/-- `insertOrIgnore` only ever appends at the end. -/
theorem insertOrIgnore_append (tbl : List EmployeeRow) (r : EmployeeRow) :
    ∃ ext, insertOrIgnore tbl r = tbl ++ ext := by
  unfold insertOrIgnore
  split
  · exact ⟨[], by simp⟩
  · exact ⟨[r], rfl⟩

/-- Seeding only ever appends at the end: existing rows are untouched. -/
theorem seed_employees_append (mapping : List (String × Info))
    (tbl : List EmployeeRow) :
    ∃ ext, seed_employees tbl mapping = tbl ++ ext := by
  induction mapping generalizing tbl with
  | nil => exact ⟨[], by simp [seed_employees]⟩
  | cons hd rest ih =>
      obtain ⟨e0, h0⟩ := insertOrIgnore_append tbl (seedRow hd.1 hd.2)
      obtain ⟨e1, h1⟩ := ih (insertOrIgnore tbl (seedRow hd.1 hd.2))
      refine ⟨e0 ++ e1, ?_⟩
      have hstep : seed_employees tbl (hd :: rest)
          = seed_employees (insertOrIgnore tbl (seedRow hd.1 hd.2)) rest := by
        simp [seed_employees]
      rw [hstep, h1, h0, List.append_assoc]

/-- C1: for every candidate result that carries a distance, the decision
step completes and its MATCHED flag holds iff the distance is at most the
active threshold — the candidate-supplied threshold when
`USE_THRESHOLD_FROM_DF` is enabled and the candidate supplies one, and the
configured fallback threshold otherwise; the comparison is the inclusive
`≤`, so a distance exactly equal to the threshold is MATCHED. -/
theorem matched_iff_le_activeThreshold (cfg : Config) (tbl : List EmployeeRow)
    (idp : String) (d : ℚ) (thr : Option ℚ) :
    ∃ e, processTop cfg tbl (some ⟨idp, some d, thr⟩) = .ok e ∧
      (e.matched = true ↔ d ≤ activeThreshold cfg thr) := by
  have h := computeMatched_some cfg d thr
  cases hb : decide (d ≤ activeThreshold cfg thr) with
  | false =>
      rw [hb] at h
      refine ⟨log_access none (some "Unknown") false (some d), ?_, ?_⟩
      · simp [processTop, h]
      · simp [log_access, of_decide_eq_false hb]
  | true =>
      rw [hb] at h
      refine ⟨log_access (personName idp)
        (resolveEmployee tbl (personName idp)).full_name true (some d), ?_, ?_⟩
      · simp [processTop, h]
      · simp [log_access, of_decide_eq_true hb]

/-- C2 (code bug): an iteration whose candidate has a `None` distance but a
present source threshold (with `USE_THRESHOLD_FROM_DF = True`) raises a
`TypeError` before `log_access` is reached: the loop terminates and zero
access-log entries are appended for that frame, violating the
one-entry-per-iteration invariant. -/
theorem null_distance_iteration_appends_no_entry :
    runLoop defaultConfig (seed_employees [] person_data)
      [⟨.ok [[⟨"known_faces/Azizbek/2.jpg", none, some (mkRat 30 100)⟩]], true⟩] []
      = ([], some .typeError) := by decide

/-- C3 (code bug): the decision never consults the identity key, so a
candidate with an absent identity key (`identity_path = ""`, hence
`person_name = None`) whose distance is within the threshold is MATCHED,
and a matched row with NULL `folder_name` and NULL `full_name` is logged —
the spec requires UNMATCHED here. -/
theorem absent_identity_key_can_match :
    processTop defaultConfig (seed_employees [] person_data)
      (some ⟨"", some (mkRat 1 10), some (mkRat 2 10)⟩)
      = .ok ⟨none, none, true, some (mkRat 1 10)⟩ := by decide

/-- C4 (code bug): for a candidate with a `None` distance and a present
source threshold under `USE_THRESHOLD_FROM_DF = True`, the decision step
does not complete with UNMATCHED: `float(None)` raises a `TypeError`
that propagates. -/
theorem null_distance_with_source_threshold_raises :
    computeMatched defaultConfig none (some (mkRat 45 100)) = .exn .typeError ∧
    processTop defaultConfig (seed_employees [] person_data)
      (some ⟨"known_faces/Nazarbek/1.jpg", none, some (mkRat 45 100)⟩)
      = .exn .typeError := by decide

/-- C5 counterexample: a failed ledger write on the first frame terminates
the whole run with the propagated sqlite error — the second frame is never
processed and no entry is ever appended, refuting the claim that the loop
surfaces the error and continues to the next frame. -/
theorem ledger_write_failure_terminates_loop_cex :
    (runLoop defaultConfig (seed_employees [] person_data)
        [⟨.ok [], false⟩, ⟨.ok [], true⟩] []).2 = some .sqliteError ∧
    (runLoop defaultConfig (seed_employees [] person_data)
        [⟨.ok [], false⟩, ⟨.ok [], true⟩] []).1 = [] := by decide

/-- C5 amended: a storage-write failure in `log_access` is not caught
anywhere in the loop: whenever an iteration reaches the ledger write and
the write fails, the loop stops at that frame with the propagated sqlite
error, the failed frame's entry is not appended, and the remaining frames
are never processed. -/
theorem ledger_write_failure_propagates (cfg : Config) (tbl : List EmployeeRow)
    (f : FrameInput) (rest : List FrameInput) (led : List AccessLogEntry)
    (entry : AccessLogEntry)
    (hw : f.write_ok = false)
    (hok : processFrame cfg tbl f.matcher = .ok entry) :
    runLoop cfg tbl (f :: rest) led = (led, some .sqliteError) := by
  simp [runLoop, runIter, hok, hw]

/-- Witness for C5 amended at a concrete frame with a failing write. -/
theorem ledger_write_failure_propagates_witness :
    runLoop defaultConfig (seed_employees [] person_data) [⟨.err, false⟩] []
      = ([], some .sqliteError) :=
  ledger_write_failure_propagates defaultConfig (seed_employees [] person_data)
    ⟨.err, false⟩ [] [] ⟨none, some "Unknown", false, none⟩ rfl rfl

/-- C6: a matcher failure is handled exactly like "no candidate produced":
the iteration yields the same UNMATCHED "Unknown" entry with no identity
and no distance, the exception does not propagate, and the loop goes on
with that single entry appended. -/
theorem matcher_error_treated_as_no_candidate (cfg : Config)
    (tbl : List EmployeeRow) :
    processFrame cfg tbl .err = processFrame cfg tbl (.ok []) ∧
    processFrame cfg tbl .err
      = .ok (log_access none (some "Unknown") false none) ∧
    ∀ rest led, runLoop cfg tbl (⟨.err, true⟩ :: rest) led
      = runLoop cfg tbl rest (led ++ [log_access none (some "Unknown") false none]) :=
  ⟨rfl, rfl, fun _ _ => rfl⟩

/-- C7: a MATCHED decision whose identity key is not in the employees
table still logs successfully: `get_employee` returns the explicit absent
result `none` instead of raising, and the appended entry carries the raw
identity key as its (non-null) display name. -/
theorem matched_unknown_key_logs_raw_key (cfg : Config) (tbl : List EmployeeRow)
    (t : TopResult) (k : String) (d : ℚ)
    (hid : personName t.identity = some k)
    (hk : hasKey tbl k = false)
    (hd : t.distance = some d)
    (hm : computeMatched cfg t.distance t.threshold = .ok true) :
    get_employee tbl (some k) = none ∧
    processTop cfg tbl (some t)
      = .ok (log_access (some k) (some k) true (some d)) := by
  have hg := get_employee_eq_none_of_not_hasKey tbl k hk
  refine ⟨hg, ?_⟩
  rw [hd] at hm
  simp [processTop, hm, hid, resolveEmployee, hg, hd]

/-- Witness for C7: the key "Stranger" is not seeded, yet the matched
iteration logs it as both identity and display name. -/
theorem matched_unknown_key_logs_raw_key_witness :
    get_employee (seed_employees [] person_data) (some "Stranger") = none ∧
    processTop ⟨true, mkRat 45 100⟩ (seed_employees [] person_data)
      (some ⟨"known_faces/Stranger/img.jpg", some (mkRat 1 10), some (mkRat 2 10)⟩)
      = .ok (log_access (some "Stranger") (some "Stranger") true (some (mkRat 1 10))) :=
  matched_unknown_key_logs_raw_key ⟨true, mkRat 45 100⟩
    (seed_employees [] person_data)
    ⟨"known_faces/Stranger/img.jpg", some (mkRat 1 10), some (mkRat 2 10)⟩
    "Stranger" (mkRat 1 10) (by decide) (by decide) rfl (by decide)

/-- C8: seeding is idempotent — re-seeding with the same mapping any
number of times yields exactly the table of a single seeding (no duplicate
rows, no value changes), and seeding never mutates the rows that were
already in the table (they remain an unchanged initial segment). -/
theorem seed_employees_idempotent (tbl : List EmployeeRow)
    (mapping : List (String × Info)) :
    seed_employees (seed_employees tbl mapping) mapping
      = seed_employees tbl mapping ∧
    (∀ n, seedIter tbl mapping (n + 1) = seed_employees tbl mapping) ∧
    (seed_employees tbl mapping).take tbl.length = tbl := by
  have hidem : seed_employees (seed_employees tbl mapping) mapping
      = seed_employees tbl mapping :=
    seed_employees_of_allKeys mapping _
      (fun kv hk => hasKey_seed_employees_mem tbl mapping kv hk)
  refine ⟨hidem, ?_, ?_⟩
  · intro n
    induction n with
    | zero => rfl
    | succ m ih =>
        show seed_employees (seedIter tbl mapping (m + 1)) mapping = _
        rw [ih, hidem]
  · obtain ⟨ext, he⟩ := seed_employees_append mapping tbl
    rw [he]
    exact List.take_left tbl ext

/-- C9: when the matcher produces no candidate, the iteration completes
with the UNMATCHED decision (null identity, null distance) and appends the
single entry with NULL identity key, display name "Unknown", matched false
and NULL distance. -/
theorem no_candidate_unmatched_unknown_entry (cfg : Config)
    (tbl : List EmployeeRow) (m : MatcherOutcome) (h : topOf m = none) :
    processFrame cfg tbl m = .ok ⟨none, some "Unknown", false, none⟩ ∧
    ∀ rest led, runLoop cfg tbl (⟨m, true⟩ :: rest) led
      = runLoop cfg tbl rest (led ++ [⟨none, some "Unknown", false, none⟩]) := by
  have hp : processFrame cfg tbl m = .ok ⟨none, some "Unknown", false, none⟩ := by
    unfold processFrame
    rw [h]
    rfl
  refine ⟨hp, fun rest led => ?_⟩
  simp [runLoop, runIter, hp]

/-- Witness for C9: an empty matcher result list produces no candidate. -/
theorem no_candidate_unmatched_unknown_entry_witness :
    processFrame defaultConfig (seed_employees [] person_data) (.ok [])
      = .ok ⟨none, some "Unknown", false, none⟩ :=
  (no_candidate_unmatched_unknown_entry defaultConfig
    (seed_employees [] person_data) (.ok []) rfl).1

/-- C10: every entry logged for an UNMATCHED decision has NULL identity
key and display name "Unknown" — the candidate's identity key is never
recorded — while the candidate's distance (possibly null) is kept. -/
theorem unmatched_entry_never_records_identity (cfg : Config)
    (tbl : List EmployeeRow) (t : TopResult) (e : AccessLogEntry)
    (h : processTop cfg tbl (some t) = .ok e) (hm : e.matched = false) :
    e.folder_name = none ∧ e.full_name = some "Unknown" ∧
    e.distance = t.distance := by
  simp only [processTop] at h
  rcases hc : computeMatched cfg t.distance t.threshold with b | err
  · rw [hc] at h
    cases b
    · simp only [log_access] at h
      cases h
      exact ⟨rfl, rfl, rfl⟩
    · simp only [log_access] at h
      cases h
      cases hm
  · rw [hc] at h
    cases h

/-- Witness for C10: a candidate that carried the identity key "Nazarbek"
but missed the threshold is logged with NULL identity and "Unknown". -/
theorem unmatched_entry_never_records_identity_witness :
    (⟨none, some "Unknown", false, some (mkRat 1 2)⟩ : AccessLogEntry).folder_name
        = none ∧
    (⟨none, some "Unknown", false, some (mkRat 1 2)⟩ : AccessLogEntry).full_name
        = some "Unknown" ∧
    (⟨none, some "Unknown", false, some (mkRat 1 2)⟩ : AccessLogEntry).distance
        = (⟨"known_faces/Nazarbek/1.jpg", some (mkRat 1 2),
            some (mkRat 2 5)⟩ : TopResult).distance :=
  unmatched_entry_never_records_identity defaultConfig
    (seed_employees [] person_data)
    ⟨"known_faces/Nazarbek/1.jpg", some (mkRat 1 2), some (mkRat 2 5)⟩
    ⟨none, some "Unknown", false, some (mkRat 1 2)⟩ (by decide) rfl

end VerifyPerson
